import Mathlib

/-!
Verification development for the dengue/climate consolidation pipeline
(`dengue_csv_processor.py` and `extracao_clima_br.py`).

The Python code is shallowly embedded: strings are Lean `String`s handled
through their character lists, machine floats are modelled as `ℚ` (the code
only parses, stores, adds, divides and compares these values; no claim here
depends on binary rounding), Python `int` is `ℤ`/`ℕ`, a function that can
raise is `Option`-valued, and the mutable consolidation dict is an explicit
association list threaded through the functions.
-/

/-! ## Character and list helpers (ASCII models of the Python str operations) -/

/-- ASCII decimal digit, the model of Python `str.isdigit`/regex `\d` for the
ASCII file names and cells this code handles. -/
def isDigitC (c : Char) : Bool := 48 ≤ c.toNat && c.toNat ≤ 57

/-- ASCII lower-case letter. -/
def isLowerC (c : Char) : Bool := 97 ≤ c.toNat && c.toNat ≤ 122

/-- ASCII upper-case letter. -/
def isUpperC (c : Char) : Bool := 65 ≤ c.toNat && c.toNat ≤ 90

/-- ASCII letter, the model of Python `str.isalpha` on the ASCII inputs here. -/
def isAlphaC (c : Char) : Bool := isLowerC c || isUpperC c

/-- ASCII upcasing of one character (model of Python `str.upper`). -/
def toUpperC (c : Char) : Char := if isLowerC c then Char.ofNat (c.toNat - 32) else c

/-- ASCII downcasing of one character (model of Python `str.lower`). -/
def toLowerC (c : Char) : Char := if isUpperC c then Char.ofNat (c.toNat + 32) else c

/-- Upcase a character list. -/
def upperL (l : List Char) : List Char := l.map toUpperC

/-- Downcase a character list. -/
def lowerL (l : List Char) : List Char := l.map toLowerC

/-- Whitespace characters stripped by Python `str.strip` (the forms that occur
in these files). -/
def isSpaceC (c : Char) : Bool := c = ' ' || c = '\t' || c = '\n' || c = '\r'

/-- Model of Python `str.strip`. -/
def trimL (l : List Char) : List Char :=
  ((l.dropWhile isSpaceC).reverse.dropWhile isSpaceC).reverse

/-- Boolean list-prefix test. -/
def pfx : List Char → List Char → Bool
  | [], _ => true
  | _ :: _, [] => false
  | a :: as, b :: bs => a = b && pfx as bs

/-- Boolean substring test on character lists (model of Python `in`). -/
def hasSub (p : List Char) : List Char → Bool
  | [] => pfx p []
  | c :: cs => pfx p (c :: cs) || hasSub p cs

/-- Substring test on strings. -/
def strHasSub (p s : String) : Bool := hasSub p.toList s.toList

/-- Split a character list at every occurrence of `c` (model of Python
`str.split(ch)`; always returns a nonempty list of pieces). -/
def splitCh (c : Char) : List Char → List (List Char)
  | [] => [[]]
  | x :: xs =>
    match splitCh c xs with
    | [] => [[]]
    | h :: t => if x = c then [] :: h :: t else (x :: h) :: t

/-- Numeric value of a digit list, most significant digit first. -/
def digitsVal (l : List Char) : ℕ := l.foldl (fun a c => a * 10 + (c.toNat - 48)) 0

/-- Parse a nonempty all-digit list. -/
def parseNatDigits (l : List Char) : Option ℕ :=
  if l ≠ [] ∧ l.all isDigitC then some (digitsVal l) else none

/-- Model of Python `int(...)` on an already stripped string: optional sign
followed by digits, `ValueError` is `none`. -/
def pyIntL (l : List Char) : Option ℤ :=
  match l with
  | [] => none
  | c :: cs =>
    if c = '-' then (parseNatDigits cs).map (fun n => -(n : ℤ))
    else if c = '+' then (parseNatDigits cs).map (fun n => (n : ℤ))
    else (parseNatDigits (c :: cs)).map (fun n => (n : ℤ))

/-- Unsigned part of the float literal parser, character phase: digits with at
most one dot, at least one digit overall (`float("5.")`, `float(".5")`
succeed, `float(".")`, `float("")`, `float("1.2.3")` raise). Returns
`(integer part, fractional digits, number of fractional digits)`. -/
def pyRatParts (l : List Char) : Option (ℕ × ℕ × ℕ) :=
  match splitCh '.' l with
  | [ip] => (parseNatDigits ip).map (fun n => (n, 0, 0))
  | [ip, fp] =>
    if ip = [] ∧ fp = [] then none
    else if ip.all isDigitC && fp.all isDigitC then
      some (digitsVal ip, digitsVal fp, fp.length)
    else none
  | _ => none

/-- Numeric phase: assemble the rational from the parsed parts. -/
def partsToQ (p : ℕ × ℕ × ℕ) : ℚ := (p.1 : ℚ) + (p.2.1 : ℚ) / ((10 : ℚ) ^ p.2.2)

/-- Unsigned float literal value. -/
def pyRatUnsigned (l : List Char) : Option ℚ := (pyRatParts l).map partsToQ

/-- Model of Python/numpy `float64(str)` on the decimal literals this code
produces, with `ℚ` in place of binary floating point; exotic accepted forms
(exponents, `inf`, `nan`) do not occur on these inputs and are treated as
unparseable. -/
def pyRatL (l : List Char) : Option ℚ :=
  match l with
  | [] => none
  | c :: cs =>
    if c = '-' then (pyRatUnsigned cs).map (fun q => -q)
    else if c = '+' then pyRatUnsigned cs
    else pyRatUnsigned (c :: cs)

/-- Drop every `"` character (Python `str.replace('"', '')`). -/
def removeQuotesL (l : List Char) : List Char := l.filter (fun c => c ≠ '"')

/-- Drop every `,` character (Python `str.replace(',', '')`). -/
def removeCommaL (l : List Char) : List Char := l.filter (fun c => c ≠ ',')

/-- Replace every `,` by `.` (Python `str.replace(',', '.')`). -/
def replaceCommaDot (l : List Char) : List Char := l.map (fun c => if c = ',' then '.' else c)

/-- Replace every `,` by the two characters `0.` (Python
`str.replace(",", "0.")`). -/
def replaceCommaZeroDot : List Char → List Char
  | [] => []
  | c :: cs =>
    if c = ',' then '0' :: '.' :: replaceCommaZeroDot cs
    else c :: replaceCommaZeroDot cs

/-! ## Value Cleaner of `extracao_clima_br.py` -/

/-- The comma transform both converters apply: a comma in leading position
(`col.find(',') == 0`) turns every comma into `0.`, otherwise every comma
becomes a period. -/
def commaTransform (l : List Char) : List Char :=
  if l.head? = some ',' then replaceCommaZeroDot l else replaceCommaDot l

/-- `convert_int_str_to_float` (precipitation path) of `extracao_clima_br.py`,
string branch: strip; empty and the sentinel `-9999` give `0.0`; the comma
transform is applied and the result parsed; a parse failure gives `0.0`; a
negative parse falls through to the final `return float64(0.0)`. -/
def convert_int_str_to_float (s : String) : ℚ :=
  let col := trimL s.toList
  if col = [] ∨ col = "-9999".toList then 0
  else
    match pyRatL (commaTransform col) with
    | some q => if 0 ≤ q then q else 0
    | none => 0

/-- Integer branch of `convert_int_str_to_float`: nonnegative ints pass
through, negative ints give `0.0`. -/
def convert_int_to_float (n : ℤ) : ℚ := if 0 ≤ n then (n : ℚ) else 0

/-- `convert_temperature_str_to_float` of `extracao_clima_br.py`, string
branch: same as the precipitation cleaner except that a successfully parsed
negative value is returned unchanged. -/
def convert_temperature_str_to_float (s : String) : ℚ :=
  let col := trimL s.toList
  if col = [] ∨ col = "-9999".toList then 0
  else
    match pyRatL (commaTransform col) with
    | some q => q
    | none => 0

/-- Integer branch of `convert_temperature_str_to_float`: any int passes
through. -/
def convert_temperature_int_to_float (n : ℤ) : ℚ := (n : ℚ)

/-! ## Label Normalizer and Consolidation Store of `dengue_csv_processor.py` -/

/-- The twelve month names, the keys (and identical values) of `meses_map`. -/
def meses_map : List String :=
  ["Janeiro", "Fevereiro", "Marco", "Abril", "Maio", "Junho",
   "Julho", "Agosto", "Setembro", "Outubro", "Novembro", "Dezembro"]

/-- `estados_map`: IBGE two-digit code to UF abbreviation, in source order. -/
def estados_map : List (String × String) :=
  [("11", "RO"), ("12", "AC"), ("13", "AM"), ("14", "RR"), ("15", "PA"),
   ("16", "AP"), ("17", "TO"), ("21", "MA"), ("22", "PI"), ("23", "CE"),
   ("24", "RN"), ("25", "PB"), ("26", "PE"), ("27", "AL"), ("28", "SE"),
   ("29", "BA"), ("31", "MG"), ("32", "ES"), ("33", "RJ"), ("35", "SP"),
   ("41", "PR"), ("42", "SC"), ("43", "RS"), ("50", "MS"), ("51", "MT"),
   ("52", "GO"), ("53", "DF")]

/-- `estados_nomes`: UF abbreviation to full state name, in source (dict
insertion) order, which fixes the first-match semantics of the name search. -/
def estados_nomes : List (String × String) :=
  [("RO", "Rondonia"), ("AC", "Acre"), ("AM", "Amazonas"), ("RR", "Roraima"),
   ("PA", "Para"), ("AP", "Amapa"), ("TO", "Tocantins"), ("MA", "Maranhao"),
   ("PI", "Piaui"), ("CE", "Ceara"), ("RN", "Rio Grande do Norte"),
   ("PB", "Paraiba"), ("PE", "Pernambuco"), ("AL", "Alagoas"), ("SE", "Sergipe"),
   ("BA", "Bahia"), ("MG", "Minas Gerais"), ("ES", "Espirito Santo"),
   ("RJ", "Rio de Janeiro"), ("SP", "Sao Paulo"), ("PR", "Parana"),
   ("SC", "Santa Catarina"), ("RS", "Rio Grande do Sul"),
   ("MS", "Mato Grosso do Sul"), ("MT", "Mato Grosso"), ("GO", "Goias"),
   ("DF", "Distrito Federal")]

/-- `colunas_ignoradas`, verbatim (the mixed-case entry is kept even though
the uppercased lookup can never hit it, exactly as in the source). -/
def colunas_ignoradas : List String :=
  ["IG", "IGNORADO", "IGNORADO/EXTERIOR", "EXTERIOR", "TOTAL",
   "00", "00 IGNORADO", "00 IGNORADO/EXTERIOR", "00 Ignorado/exterior"]

/-- First-match association lookup (Python `dict.get`). -/
def tabelaBusca : List (String × String) → String → Option String
  | [], _ => none
  | (k, v) :: rest, s => if k = s then some v else tabelaBusca rest s

/-- `should_ignore_column`: uppercase, strip, drop quotes, then test
membership in the ignore set, the `TOTAL`/`IGNORADO`/`EXTERIOR` substrings,
and the `00` numeric-code start. -/
def should_ignore_column (s : String) : Bool :=
  let u := removeQuotesL (trimL (upperL s.toList))
  colunas_ignoradas.any (fun t => t.toList = u)
  || hasSub "TOTAL".toList u || hasSub "IGNORADO".toList u
  || hasSub "EXTERIOR".toList u
  || pfx "00".toList u

/-- The leading two-digit code of a label, when present (model of
`re.match(r'(\d{2})', ...)`). -/
def twoDigitCode : List Char → Option (List Char)
  | a :: b :: _ => if isDigitC a && isDigitC b then some [a, b] else none
  | _ => none

/-- Search `estados_nomes` for the first full name occurring (uppercased) as a
substring of the uppercased label. -/
def buscaNome : List (String × String) → List Char → Option String
  | [], _ => none
  | (uf, nome) :: rest, u =>
    if hasSub (upperL nome.toList) u then some uf else buscaNome rest u

/-- `clean_state_name`: strip and unquote; `None` for ignorable labels; a bare
two-letter code is uppercased and accepted; a leading two-digit code is looked
up in `estados_map` (code `00` is `None`, an unknown code is returned as the
code string itself); otherwise the first state whose full name occurs in the
label wins; otherwise the label passes through unchanged. -/
def clean_state_name (s : String) : Option String :=
  let c := removeQuotesL (trimL s.toList)
  if should_ignore_column (String.mk c) then none
  else if c.length = 2 && c.all isAlphaC then some (String.mk (upperL c))
  else
    match twoDigitCode c with
    | some code =>
      let codeS := String.mk code
      if codeS = "00" then none
      else some ((tabelaBusca estados_map codeS).getD codeS)
    | none =>
      match buscaNome estados_nomes (upperL c) with
      | some uf => some uf
      | none => some (String.mk c)

/-- `clean_data_value`: `-`, empty and all-blank cells give `0`; otherwise
strip, drop quotes and thousands commas, and parse an int, with `0` on
failure. Numeric cells delivered by pandas behave as their decimal strings. -/
def clean_data_value (s : String) : ℤ :=
  if s = "-" ∨ trimL s.toList = [] then 0
  else
    match pyIntL (removeCommaL (removeQuotesL (trimL s.toList))) with
    | some v => v
    | none => 0

/-- A consolidated record; the identity fields live in the key of the store,
the `Ano`/`Mes`/`Estado` copies the dict values also carry are omitted. -/
structure Registro where
  casos : ℤ
  mortes : ℤ
  temperatura : ℚ
  precipitacao : ℚ
deriving DecidableEq, Repr

/-- The key of `dados_consolidados`: `(year, month, state)`. -/
abbrev ChaveDado := ℕ × String × String

/-- The consolidation store `dados_consolidados`, as an insertion-ordered
association list (the Python dict). -/
abbrev Consolidados := List (ChaveDado × Registro)

/-- The four non-identity fields an observation can overwrite. -/
inductive Campo | casos | mortes | temperatura | precipitacao
deriving DecidableEq, Repr

/-- The all-defaults record created lazily on first observation of a key. -/
def registroPadrao : Registro := ⟨0, 0, 0, 0⟩

/-- Overwrite exactly one field (`vi` feeds the integer fields, `vq` the
float fields). -/
def setCampo (r : Registro) : Campo → ℤ → ℚ → Registro
  | .casos, vi, _ => { r with casos := vi }
  | .mortes, vi, _ => { r with mortes := vi }
  | .temperatura, _, vq => { r with temperatura := vq }
  | .precipitacao, _, vq => { r with precipitacao := vq }

/-- Read one field, uniformly as `ℚ`. -/
def campoVal (r : Registro) : Campo → ℚ
  | .casos => (r.casos : ℚ)
  | .mortes => (r.mortes : ℚ)
  | .temperatura => r.temperatura
  | .precipitacao => r.precipitacao

/-- Dict lookup on the store. -/
def lookupStore : Consolidados → ChaveDado → Option Registro
  | [], _ => none
  | (k', r) :: rest, k => if k' = k then some r else lookupStore rest k

/-- Dict item assignment for a key already present (keeps its position). -/
def setStore : Consolidados → ChaveDado → Registro → Consolidados
  | [], _, _ => []
  | (k', r') :: rest, k, r =>
    if k' = k then (k, r) :: rest else (k', r') :: setStore rest k r

/-- One observation applied to the store, the shared shape of lines 535-551
(`process_single_csv`: create the record with all fields defaulted if the key
is absent, then overwrite the `Casos` or `Mortes` field) and of each of the
two field assignments of lines 793-807 (`add_climate_data`). -/
def applyObs (st : Consolidados) (k : ChaveDado) (f : Campo) (vi : ℤ) (vq : ℚ) :
    Consolidados :=
  match lookupStore st k with
  | some r => setStore st k (setCampo r f vi vq)
  | none => st ++ [(k, setCampo registroPadrao f vi vq)]

/-- One climate row of `add_climate_data`: the `Temperatura` assignment then
the `Precipitacao` assignment (creation with zeroed case/death fields when the
key is new coincides with applying the two single-field observations in
sequence). -/
def add_climate_row (st : Consolidados) (ano : ℕ) (mes estado : String)
    (t p : ℚ) : Consolidados :=
  applyObs (applyObs st (ano, mes, estado) .temperatura 0 t)
    (ano, mes, estado) .precipitacao 0 p

/-! ## Schema Locator (`find_data_section`) -/

/-- A line containing one of the header keywords (checked on the raw line,
as in the source). -/
def linha_cabecalho (l : String) : Bool :=
  ["Mês notificação", "Mes notificacao", "Mês", "Mes"].any
    (fun k => hasSub k.toList l.toList)

/-- A line whose stripped form starts with `"Janeiro"` or `Janeiro`. -/
def linha_inicio_dados (l : String) : Bool :=
  pfx "\"Janeiro\"".toList (trimL l.toList) || pfx "Janeiro".toList (trimL l.toList)

/-- The scan of `find_data_section`: a header-keyword line records its index
(overwriting any earlier one) and scanning continues; otherwise a data-start
line stops the scan. -/
def find_data_section_aux : List String → ℕ → Option ℕ → Option ℕ × Option ℕ
  | [], _, h => (h, none)
  | l :: ls, i, h =>
    if linha_cabecalho l then find_data_section_aux ls (i + 1) (some i)
    else if linha_inicio_dados l then (h, some i)
    else find_data_section_aux ls (i + 1) h

/-- `find_data_section`: returns `(header_line, data_start)`. -/
def find_data_section (lines : List String) : Option ℕ × Option ℕ :=
  find_data_section_aux lines 0 none

/-- A data-section terminator line (`Total`/`Fonte`/`Notas:`). -/
def linha_terminador (l : String) : Bool :=
  ["Total", "Fonte", "Notas:"].any (fun k => hasSub k.toList l.toList)

/-- The data-line collection loop of `process_single_csv`: from the data
start, strip each line, skip blanks, stop at a terminator. -/
def coletar_linhas_dados : List String → List String
  | [] => []
  | l :: ls =>
    let t := String.mk (trimL l.toList)
    if t = "" then coletar_linhas_dados ls
    else if linha_terminador t then []
    else t :: coletar_linhas_dados ls

/-! ## Single-Source Parser (`process_single_csv`) -/

set_option linter.unusedVariables false in
/-- Replace every occurrence of the nonempty pattern `p` by `r`, scanning left
to right without rescanning emitted output (Python `str.replace`). -/
def replaceSub (p r : List Char) (l : List Char) : List Char :=
  match l with
  | [] => []
  | c :: cs =>
    if h : (pfx p (c :: cs) && !p.isEmpty) = true then
      r ++ replaceSub p r ((c :: cs).drop p.length)
    else c :: replaceSub p r cs
termination_by l.length
decreasing_by
  · simp only [Bool.and_eq_true, Bool.not_eq_true', List.isEmpty_eq_false] at h
    have hp : p.length ≥ 1 := by
      cases p with
      | nil => exact absurd rfl h.2
      | cons a as => simp
    simp only [List.length_drop, List.length_cons]
    omega
  · simp only [List.length_cons]; omega

/-- Split one semicolon-separated line into cells (model of the pandas
`sep=';'` field split on these quote-free-in-field lines; surrounding quotes
are stripped later by the per-cell cleaners, as in the source). -/
def split_semicolon (s : String) : List String :=
  (splitCh ';' s.toList).map String.mk

/-- File-level measurement kind, the two values `detect_data_type` returns. -/
inductive TipoDado | casos | mortes
deriving DecidableEq, Repr

/-- The store field a file-level kind overwrites. -/
def campo_do_tipo : TipoDado → Campo
  | .casos => .casos
  | .mortes => .mortes

/-- One entry of the `records` list produced by `process_single_csv`. -/
structure Observacao where
  ano : ℕ
  mes : String
  estado : String
  tipo : TipoDado
  valor : ℤ
deriving DecidableEq, Repr

/-- The inner column loop of `process_single_csv` (lines 527-559): each state
column is normalized, ignorable/invalid columns are skipped, and each
surviving cell updates the store and emits one observation. The upfront
`df.drop` of ignorable columns is omitted here because `clean_state_name`
skips exactly those columns again. -/
def processar_colunas (ano : ℕ) (mes : String) (tipo : TipoDado) :
    Consolidados → List String → List String → Consolidados × List Observacao
  | st, [], _ => (st, [])
  | st, _ :: _, [] => (st, [])
  | st, c :: cs, v :: vs =>
    match clean_state_name c with
    | none => processar_colunas ano mes tipo st cs vs
    | some uf =>
      let valor := clean_data_value v
      let st' := applyObs st (ano, mes, uf) (campo_do_tipo tipo) valor 0
      let (st'', obs) := processar_colunas ano mes tipo st' cs vs
      (st'', ⟨ano, mes, uf, tipo, valor⟩ :: obs)

/-- One data row of `process_single_csv`: the first cell must match one of the
twelve canonical month names verbatim (after strip/unquote) or the row is
dropped; the remaining cells go through the column loop. -/
def processar_linha (ano : ℕ) (tipo : TipoDado) (cols : List String)
    (st : Consolidados) (vals : List String) : Consolidados × List Observacao :=
  match vals with
  | [] => (st, [])
  | v0 :: vrest =>
    let mes := String.mk (removeQuotesL (trimL v0.toList))
    if meses_map.contains mes then processar_colunas ano mes tipo st (cols.drop 1) vrest
    else (st, [])

/-- The row loop over all data rows, accumulating the `records` list. -/
def processar_linhas (ano : ℕ) (tipo : TipoDado) (cols : List String) :
    Consolidados → List (List String) → Consolidados × List Observacao
  | st, [] => (st, [])
  | st, row :: rows =>
    let (st', obs) := processar_linha ano tipo cols st row
    let (st'', obss) := processar_linhas ano tipo cols st' rows
    (st'', obs ++ obss)

/-- `process_single_csv` on the located schema: find the data section, take
the recorded header line (or synthesize one from the first data line by
relabeling `Janeiro` as the month header), collect the data lines up to a
terminator, split everything on semicolons, and run the row loop. File IO and
the pandas CSV reader are modelled by the given line list and the semicolon
split. -/
def process_single_csv (st : Consolidados) (ano : ℕ) (tipo : TipoDado)
    (lines : List String) : Consolidados × List Observacao :=
  match find_data_section lines with
  | (_, none) => (st, [])
  | (hOpt, some ds) =>
    let headerStr :=
      match hOpt with
      | some h => String.mk (trimL (lines.getD h "").toList)
      | none =>
        String.mk (replaceSub "Janeiro".toList "Mês notificação".toList
          (replaceSub "\"Janeiro\"".toList "\"Mês notificação\"".toList
            (trimL (lines.getD ds "").toList)))
    let dataLines := coletar_linhas_dados (lines.drop ds)
    let cols := split_semicolon headerStr
    let rows := dataLines.map split_semicolon
    processar_linhas ano tipo cols st rows

/-! ## Filename classification (`detect_data_type`, `extract_year_from_filename`) -/

/-- Remove every occurrence of `.csv` (Python `replace('.csv', '')`). -/
def stripCsvLower : List Char → List Char
  | '.' :: 'c' :: 's' :: 'v' :: rest => stripCsvLower rest
  | c :: rest => c :: stripCsvLower rest
  | [] => []

/-- Remove every occurrence of `.CSV` (Python `replace('.CSV', '')`). -/
def stripCsvUpper : List Char → List Char
  | '.' :: 'C' :: 'S' :: 'V' :: rest => stripCsvUpper rest
  | c :: rest => c :: stripCsvUpper rest
  | [] => []

/-- Exactly four digits (regex `^\d{4}$`). -/
def isFourDigitsL (l : List Char) : Bool := l.length = 4 && l.all isDigitC

/-- Last character is `d`. -/
def endsWithD (l : List Char) : Bool := l.getLast? = some 'd'

/-- The content sniffing fallback of `detect_data_type`. -/
def detect_by_content (content : String) : TipoDado :=
  if strHasSub "Óbito pelo agravo notificado" content
      || strHasSub "Obito pelo agravo notificado" content then .mortes
  else if strHasSub "Casos Prováveis" content
      || strHasSub "Casos Provaveis" content then .casos
  else if strHasSub "Evolução:" content || strHasSub "Evolucao:" content then .mortes
  else .casos

/-- `detect_data_type` on a base filename and the file's text: lowercase the
name, drop `.csv`; a stem ending in `d` is death data, a bare four-digit stem
is case data, anything else falls back to content sniffing. -/
def detect_data_type (filename content : String) : TipoDado :=
  let stem := stripCsvLower (lowerL filename.toList)
  if endsWithD stem then .mortes
  else if isFourDigitsL stem then .casos
  else detect_by_content content

/-- Leftmost run of four consecutive digits, as a number (model of
`re.search(r'(\d{4})', ...)`). -/
def firstFourRun : List Char → Option ℕ
  | a :: b :: c :: d :: rest =>
    if isDigitC a && isDigitC b && isDigitC c && isDigitC d then
      some (digitsVal [a, b, c, d])
    else firstFourRun (b :: c :: d :: rest)
  | _ => none

/-- Four consecutive digits sit at position `i`. -/
def fourAt (l : List Char) (i : ℕ) : Bool := isFourDigitsL ((l.drop i).take 4)

/-- The stem `extract_year_from_filename` tests: drop `.csv` then `.CSV`
occurrences, then a trailing `d`. -/
def year_stem (filename : String) : List Char :=
  let stem0 := stripCsvUpper (stripCsvLower filename.toList)
  if endsWithD stem0 then stem0.dropLast else stem0

/-- `extract_year_from_filename`: a four-digit stem is the year; otherwise
the first four-digit run anywhere in the original filename; otherwise the
`ValueError` is `none`. -/
def extract_year_from_filename (filename : String) : Option ℕ :=
  let stem := year_stem filename
  if isFourDigitsL stem then some (digitsVal stem)
  else firstFourRun filename.toList

/-! ## Climate date handling (`extracao_clima_br.py`) -/

/-- Days per month with leap years (the calendar validity
`datetime.fromisoformat` enforces). -/
def diasNoMes (y m : ℕ) : ℕ :=
  if m = 2 then (if y % 4 = 0 ∧ (y % 100 ≠ 0 ∨ y % 400 = 0) then 29 else 28)
  else if m = 4 ∨ m = 6 ∨ m = 9 ∨ m = 11 then 30
  else 31

/-- Strict `YYYY-MM-DD` parse (model of `datetime.fromisoformat` on a date
token), returning `(day, month)`. -/
def iso_day_month (l : List Char) : Option (ℕ × ℕ) :=
  match splitCh '-' l with
  | [y, m, d] =>
    if y.length = 4 && y.all isDigitC && m.length = 2 && m.all isDigitC
        && d.length = 2 && d.all isDigitC then
      let yn := digitsVal y
      let mn := digitsVal m
      let dn := digitsVal d
      if 1 ≤ mn ∧ mn ≤ 12 ∧ 1 ≤ dn ∧ dn ≤ diasNoMes yn mn then some (dn, mn)
      else none
    else none
  | _ => none

/-- Model of the `pandas.to_datetime` fallback for strings without `/` or `-`:
compact `YYYYMMDD` forms parse, every other shape occurring here raises. -/
def compact_date (l : List Char) : Option (ℕ × ℕ) :=
  if l.length = 8 && l.all isDigitC then
    let yn := digitsVal (l.take 4)
    let mn := digitsVal ((l.drop 4).take 2)
    let dn := digitsVal (l.drop 6)
    if 1 ≤ mn ∧ mn ≤ 12 ∧ 1 ≤ dn ∧ dn ≤ diasNoMes yn mn then some (dn, mn)
    else none
  else none

/-- `convert_str_to_day_and_month`: empty input gives the `1/1` placeholder;
slash dates with at least three parts are reordered (`YYYY/MM/DD` vs
`DD/MM/YYYY`) and reprinted as `day/month`, with `1/1` when `int(...)` raises,
and the Python `None` fall-through (`none` here) when fewer than three parts;
dash dates go through the ISO parser with `1/1` on failure; everything else
goes through the `to_datetime` fallback with `1/1` on failure. -/
def convert_str_to_day_and_month (line : String) : Option String :=
  if line = "" then some "1/1"
  else
    let l := trimL line.toList
    if l.contains '/' then
      let parts := splitCh '/' l
      if parts.length ≥ 3 then
        let p0 := parts.getD 0 []
        let day := if p0.length = 4 then parts.getD 2 [] else p0
        let month := parts.getD 1 []
        match pyIntL (trimL day), pyIntL (trimL month) with
        | some d, some m => some (toString d ++ "/" ++ toString m)
        | _, _ => some "1/1"
      else none
    else if l.contains '-' then
      match iso_day_month ((splitCh ' ' l).getD 0 []) with
      | some (d, m) => some (toString d ++ "/" ++ toString m)
      | none => some "1/1"
    else
      match compact_date l with
      | some (d, m) => some (toString d ++ "/" ++ toString m)
      | none => some "1/1"

/-- The `extract_month` closure of `process_state_data`: a missing label is
month `13`; otherwise split on `/`, take the second part as the month, and
clamp everything unparseable or outside `1..12` to the sentinel `13`. -/
def extract_month (x : Option String) : ℕ :=
  match x with
  | none => 13
  | some s =>
    let parts := splitCh '/' s.toList
    if parts.length ≥ 2 then
      match pyIntL (trimL (parts.getD 1 [])) with
      | some m => if 1 ≤ m ∧ m ≤ 12 then m.toNat else 13
      | none => 13
    else 13

/-! ## Climate Aggregator (`process_state_data` and the read wave) -/

/-- One combined per-day row of a station, after the per-station
`temp_avg = (temp_max + temp_min) / 2` column is built (that computation is
thread-local and interleaving-independent). -/
structure LinhaClima where
  rotulo : Option String
  precipitacao : ℚ
  temp_media : ℚ
deriving DecidableEq, Repr

/-- Month assigned to a row by `extract_month`. -/
def mes_da_linha (r : LinhaClima) : ℕ := extract_month r.rotulo

/-- The rows the `groupby("month")` places in month `m`. -/
def linhas_do_mes (rows : List LinhaClima) (m : ℕ) : List LinhaClima :=
  rows.filter (fun r => mes_da_linha r = m)

/-- Per-month precipitation sum (`agg {"precipitation": "sum"}`). -/
def soma_precipitacao (rows : List LinhaClima) (m : ℕ) : ℚ :=
  ((linhas_do_mes rows m).map (fun r => r.precipitacao)).sum

/-- Per-month temperature mean (`agg {"temp_avg": "mean"}`). -/
def media_temp (rows : List LinhaClima) (m : ℕ) : ℚ :=
  let l := linhas_do_mes rows m
  if l.length = 0 then 0 else ((l.map (fun r => r.temp_media)).sum) / (l.length : ℚ)

/-- Round to two decimal places (`round(x, 2)`; `ℚ` rounding stands in for
the float banker's rounding, which no claim here distinguishes). -/
def round2 (q : ℚ) : ℚ := ((round (q * 100) : ℤ) : ℚ) / 100

/-- The monthly aggregate rows of one `(year, region)` group: rows with the
sentinel month `13` are discarded by the `month != 13` filter, the rest are
grouped by month (pandas sorts group keys ascending) and summed/averaged. -/
def agrega_mensal (rows : List LinhaClima) : List (ℕ × ℚ × ℚ) :=
  (List.range' 1 12).filterMap (fun m =>
    if (linhas_do_mes rows m).length = 0 then none
    else some (m, round2 (soma_precipitacao rows m), round2 (media_temp rows m)))

/-- One station file's contribution, as appended to
`pre_processed_data[year][uf]` by `process_file` under the lock. -/
structure Estacao where
  uf : String
  linhas : List LinhaClima
deriving DecidableEq, Repr

/-- The rows `process_state_data` combines for one region: the concatenation,
in arrival order, of the rows of every station filed under that region. -/
def linhas_regiao (stations : List Estacao) (uf : String) : List LinhaClima :=
  (stations.filter (fun st => st.uf = uf)).flatMap (fun st => st.linhas)

/-! ## Station region resolution (`read_csv` of `extracao_clima_br.py`) -/

/-- The 27 keys of `STATE_DICT`, in source order. -/
def state_dict : List String :=
  ["AC", "AP", "AM", "PA", "RO", "RR", "TO", "AL", "BA", "CE", "MA", "PB",
   "PE", "PI", "RN", "SE", "DF", "GO", "MT", "MS", "ES", "MG", "RJ", "SP",
   "PR", "RS", "SC"]

/-- The UF resolution of `read_csv`: `none` stands for both a metadata block
without a `UF:` entry and an unreadable metadata block (both give the `"SP"`
default); the value is stripped and upper-cased, and anything outside
`STATE_DICT` collapses to `"SP"`. -/
def read_csv_uf (meta : Option String) : String :=
  let uf := String.mk (upperL (trimL (meta.getD "SP").toList))
  if state_dict.contains uf then uf else "SP"

/-- The locked grouping step of `process_file`, restricted to one year's
bucket: create the region's list if absent, then append the station. -/
def insere_estacao : List (String × List Estacao) → Estacao → List (String × List Estacao)
  | [], e => [(e.uf, [e])]
  | (k, v) :: rest, e =>
    if k = e.uf then (k, v ++ [e]) :: rest else (k, v) :: insere_estacao rest e

/-- Bucket lookup in a year's grouping. -/
def busca_grupo : List (String × List Estacao) → String → Option (List Estacao)
  | [], _ => none
  | (k, v) :: rest, s => if k = s then some v else busca_grupo rest s

/-! ## Store lemmas -/

/-- Updating a present key, then looking it up, gives the new record. -/
theorem lookupStore_setStore_self (st : Consolidados) (k : ChaveDado)
    (r0 r : Registro) (h : lookupStore st k = some r0) :
    lookupStore (setStore st k r) k = some r := by
  induction st with
  | nil => simp [lookupStore] at h
  | cons p rest ih =>
    obtain ⟨k', r'⟩ := p
    by_cases hk : k' = k
    · subst hk
      simp [setStore, lookupStore]
    · simp only [lookupStore, if_neg hk] at h
      simp [setStore, lookupStore, hk, ih h]

/-- Updating one key leaves every other key's lookup unchanged. -/
theorem lookupStore_setStore_ne (st : Consolidados) (k k' : ChaveDado)
    (r : Registro) (h : k' ≠ k) :
    lookupStore (setStore st k r) k' = lookupStore st k' := by
  induction st with
  | nil => simp [setStore]
  | cons p rest ih =>
    obtain ⟨k0, r0⟩ := p
    by_cases hk : k0 = k
    · subst hk
      simp [setStore, lookupStore, Ne.symm h]
    · simp only [setStore, if_neg hk]
      by_cases hk' : k0 = k'
      · simp [lookupStore, hk']
      · simp [lookupStore, hk', ih]

/-- A key found on the left of an append is found in the append. -/
theorem lookupStore_append_some (s1 s2 : Consolidados) (k : ChaveDado)
    (r : Registro) (h : lookupStore s1 k = some r) :
    lookupStore (s1 ++ s2) k = some r := by
  induction s1 with
  | nil => simp [lookupStore] at h
  | cons p rest ih =>
    obtain ⟨k', r'⟩ := p
    by_cases hk : k' = k
    · subst hk
      simp [lookupStore] at h
      simp [lookupStore, h]
    · simp only [lookupStore, if_neg hk] at h
      simp [lookupStore, hk, ih h]

/-- A key absent on the left of an append is looked up on the right. -/
theorem lookupStore_append_none (s1 s2 : Consolidados) (k : ChaveDado)
    (h : lookupStore s1 k = none) :
    lookupStore (s1 ++ s2) k = lookupStore s2 k := by
  induction s1 with
  | nil => simp
  | cons p rest ih =>
    obtain ⟨k', r'⟩ := p
    by_cases hk : k' = k
    · simp [lookupStore, hk] at h
    · simp only [lookupStore, if_neg hk] at h
      simp [lookupStore, hk, ih h]

/-- Overwriting one field leaves every other field's value unchanged. -/
theorem campoVal_setCampo_ne (r : Registro) (f f' : Campo) (vi : ℤ) (vq : ℚ)
    (h : f' ≠ f) : campoVal (setCampo r f vi vq) f' = campoVal r f' := by
  cases f <;> cases f' <;> first
    | exact absurd rfl h
    | simp [setCampo, campoVal]

/-- After an observation, its key holds the singly-updated record. -/
theorem lookupStore_applyObs_self (st : Consolidados) (k : ChaveDado)
    (f : Campo) (vi : ℤ) (vq : ℚ) :
    lookupStore (applyObs st k f vi vq) k =
      some (setCampo ((lookupStore st k).getD registroPadrao) f vi vq) := by
  unfold applyObs
  cases h : lookupStore st k with
  | some r => simpa [h] using lookupStore_setStore_self st k r _ h
  | none =>
    rw [lookupStore_append_none st _ k h]
    simp [lookupStore, h]

/-- After an observation, every other key's lookup is unchanged. -/
theorem lookupStore_applyObs_ne (st : Consolidados) (k k' : ChaveDado)
    (f : Campo) (vi : ℤ) (vq : ℚ) (h : k' ≠ k) :
    lookupStore (applyObs st k f vi vq) k' = lookupStore st k' := by
  unfold applyObs
  cases hk : lookupStore st k with
  | some r => exact lookupStore_setStore_ne st k k' _ h
  | none =>
    cases hk' : lookupStore st k' with
    | some r' => exact lookupStore_append_some st _ k' r' hk'
    | none =>
      rw [lookupStore_append_none st _ k' hk']
      simp [lookupStore, Ne.symm h]

/-! ## Claim C2 -/

/-- Claim C2: field isolation. For any consolidated record already present,
applying one observation overwrites only the field matching its measurement
kind: every other non-identity field keeps its previous value (never its
default), and records under other keys are untouched. The second conjunct
specializes this to the climate-merge row of `add_climate_data` (one
temperature write followed by one precipitation write): the case and death
counts of an existing record survive unchanged. -/
theorem c2_field_isolation :
    (∀ (st : Consolidados) (k k' : ChaveDado) (f f' : Campo) (vi : ℤ) (vq : ℚ)
        (r : Registro), f' ≠ f → lookupStore st k' = some r →
      ∃ r2, lookupStore (applyObs st k f vi vq) k' = some r2 ∧
        campoVal r2 f' = campoVal r f' ∧ (k' ≠ k → r2 = r)) ∧
    (∀ (st : Consolidados) (ano : ℕ) (mes estado : String) (t p : ℚ)
        (r : Registro), lookupStore st (ano, mes, estado) = some r →
      ∃ r2, lookupStore (add_climate_row st ano mes estado t p)
          (ano, mes, estado) = some r2 ∧
        r2.casos = r.casos ∧ r2.mortes = r.mortes) := by
  constructor
  · intro st k k' f f' vi vq r hf hr
    by_cases hk : k' = k
    · subst hk
      refine ⟨setCampo ((lookupStore st k').getD registroPadrao) f vi vq,
        lookupStore_applyObs_self st k' f vi vq, ?_, fun hcon => absurd rfl hcon⟩
      rw [hr]
      exact campoVal_setCampo_ne r f f' vi vq hf
    · exact ⟨r, by rw [lookupStore_applyObs_ne st k k' f vi vq hk]; exact hr,
        rfl, fun _ => rfl⟩
  · intro st ano mes estado t p r hr
    refine ⟨setCampo (setCampo r .temperatura 0 t) .precipitacao 0 p, ?_, ?_, ?_⟩
    · unfold add_climate_row
      rw [lookupStore_applyObs_self, lookupStore_applyObs_self, hr]
      simp
    · simp [setCampo]
    · simp [setCampo]

/-- Claim C2 witness: a record with five cases takes a death observation and
a climate row without its case count moving. -/
theorem c2_field_isolation_witness :
    (∃ r2, lookupStore
        (applyObs [((2020, "Janeiro", "RO"), ⟨5, 0, 0, 0⟩)]
          (2020, "Janeiro", "RO") .mortes 2 0) (2020, "Janeiro", "RO") = some r2 ∧
      campoVal r2 .casos = campoVal ⟨5, 0, 0, 0⟩ .casos ∧
      (((2020, "Janeiro", "RO") : ChaveDado) ≠ (2020, "Janeiro", "RO") → r2 = ⟨5, 0, 0, 0⟩)) ∧
    (∃ r2, lookupStore
        (add_climate_row [((2020, "Janeiro", "RO"), ⟨5, 2, 0, 0⟩)]
          2020 "Janeiro" "RO" (51/2) (3/10)) (2020, "Janeiro", "RO") = some r2 ∧
      r2.casos = (5 : ℤ) ∧ r2.mortes = (2 : ℤ)) := by
  constructor
  · exact c2_field_isolation.1 [((2020, "Janeiro", "RO"), ⟨5, 0, 0, 0⟩)]
      (2020, "Janeiro", "RO") (2020, "Janeiro", "RO") .mortes .casos 2 0
      ⟨5, 0, 0, 0⟩ (by decide) (by decide)
  · exact c2_field_isolation.2 [((2020, "Janeiro", "RO"), ⟨5, 2, 0, 0⟩)]
      2020 "Janeiro" "RO" (51/2) (3/10) ⟨5, 2, 0, 0⟩ (by decide)

/-! ## Claim C1 -/

/-- Claim C1, counterexample: on the spec's sample scenario the second
observation of `2020.csv` is for the region PA, not RJ — `clean_state_name`
resolves the column label by its leading two-digit code, and code `15` maps to
`PA` in `estados_map` (`RJ` is code `33`), so the claimed observation
(2020, Janeiro, RJ, case, 0) is not produced. -/
theorem c1_sample_scenario_counterexample :
    (process_single_csv [] 2020 .casos
        ["\"Mês notificação\";\"11 RO\";\"15 RJ\"", "\"Janeiro\";5;-"]).2 =
      [⟨2020, "Janeiro", "RO", .casos, 5⟩, ⟨2020, "Janeiro", "PA", .casos, 0⟩] ∧
    clean_state_name "\"15 RJ\"" = some "PA" ∧
    (⟨2020, "Janeiro", "PA", .casos, 0⟩ : Observacao) ≠
      ⟨2020, "Janeiro", "RJ", .casos, 0⟩ := by decide

/-- Claim C1 as amended: the sample `2020.csv` yields the observations
(2020, Janeiro, RO, case, 5) and (2020, Janeiro, PA, case, 0) — PA because the
label `"15 RJ"` is resolved by its numeric code 15 — and processing the
companion `2020d.csv` with value 2 under `"11 RO"` leaves the consolidated
record for (2020, Janeiro, RO) at cases 5, deaths 2, temperature 0.0,
precipitation 0.0. -/
theorem c1_sample_scenario_amended :
    detect_data_type "2020.csv" "" = .casos ∧
    detect_data_type "2020d.csv" "" = .mortes ∧
    extract_year_from_filename "2020.csv" = some 2020 ∧
    extract_year_from_filename "2020d.csv" = some 2020 ∧
    (process_single_csv [] 2020 .casos
        ["\"Mês notificação\";\"11 RO\";\"15 RJ\"", "\"Janeiro\";5;-"]).2 =
      [⟨2020, "Janeiro", "RO", .casos, 5⟩, ⟨2020, "Janeiro", "PA", .casos, 0⟩] ∧
    lookupStore
      (process_single_csv
        (process_single_csv [] 2020 .casos
          ["\"Mês notificação\";\"11 RO\";\"15 RJ\"", "\"Janeiro\";5;-"]).1
        2020 .mortes
        ["\"Mês notificação\";\"11 RO\";\"15 RJ\"", "\"Janeiro\";2;-"]).1
      (2020, "Janeiro", "RO") = some ⟨5, 2, 0, 0⟩ ∧
    lookupStore
      (process_single_csv
        (process_single_csv [] 2020 .casos
          ["\"Mês notificação\";\"11 RO\";\"15 RJ\"", "\"Janeiro\";5;-"]).1
        2020 .mortes
        ["\"Mês notificação\";\"11 RO\";\"15 RJ\"", "\"Janeiro\";2;-"]).1
      (2020, "Janeiro", "PA") = some ⟨0, 0, 0, 0⟩ := by decide

/-! ## Claim C3 -/

/-- Invariant of the `find_data_section` scan: when a data start is returned
at absolute index `i + n`, the line there is a non-keyword data line, every
earlier line is either a keyword line or not a data line, and the returned
header index is the accumulator (no keyword line seen) or the absolute index
of the LAST keyword line seen before the data start. -/
theorem find_data_section_aux_spec (ls : List String) :
    ∀ (i : ℕ) (h0 h : Option ℕ) (d : ℕ),
      find_data_section_aux ls i h0 = (h, some d) →
      ∃ n, n < ls.length ∧ d = i + n ∧
        linha_inicio_dados (ls.getD n "") = true ∧
        linha_cabecalho (ls.getD n "") = false ∧
        (∀ m, m < n → linha_cabecalho (ls.getD m "") = true ∨
          linha_inicio_dados (ls.getD m "") = false) ∧
        ((h = h0 ∧ ∀ m, m < n → linha_cabecalho (ls.getD m "") = false) ∨
         (∃ j, h = some (i + j) ∧ j < n ∧ linha_cabecalho (ls.getD j "") = true ∧
           ∀ m, j < m → m < n → linha_cabecalho (ls.getD m "") = false)) := by
  induction ls with
  | nil =>
    intro i h0 h d heq
    simp [find_data_section_aux] at heq
  | cons l ls ih =>
    intro i h0 h d heq
    rw [find_data_section_aux] at heq
    by_cases hc : linha_cabecalho l = true
    · rw [if_pos hc] at heq
      obtain ⟨n, hn, hd, hds, hnc, hprev, hh⟩ := ih (i + 1) (some i) h d heq
      refine ⟨n + 1, by simpa using Nat.succ_lt_succ hn, by omega,
        by simpa using hds, by simpa using hnc, ?_, ?_⟩
      · intro m hm
        cases m with
        | zero => exact Or.inl (by simpa using hc)
        | succ m' => simpa using hprev m' (by omega)
      · rcases hh with ⟨hh0, hall⟩ | ⟨j, hj, hjn, hjc, hafter⟩
        · refine Or.inr ⟨0, by simpa using hh0, by omega, by simpa using hc, ?_⟩
          intro m hm1 hm2
          cases m with
          | zero => omega
          | succ m' => simpa using hall m' (by omega)
        · refine Or.inr ⟨j + 1, ?_, by omega, by simpa using hjc, ?_⟩
          · rw [hj]; congr 1; omega
          · intro m hm1 hm2
            cases m with
            | zero => omega
            | succ m' => simpa using hafter m' (by omega) (by omega)
    · rw [if_neg hc] at heq
      by_cases hdl : linha_inicio_dados l = true
      · rw [if_pos hdl] at heq
        simp only [Prod.mk.injEq, Option.some.injEq] at heq
        obtain ⟨rfl, rfl⟩ := heq
        refine ⟨0, by simp, by omega, by simpa using hdl,
          by simpa using eq_false_of_ne_true hc, ?_, ?_⟩
        · intro m hm; omega
        · exact Or.inl ⟨rfl, fun m hm => by omega⟩
      · rw [if_neg hdl] at heq
        obtain ⟨n, hn, hd, hds, hnc, hprev, hh⟩ := ih (i + 1) h0 h d heq
        refine ⟨n + 1, by simpa using Nat.succ_lt_succ hn, by omega,
          by simpa using hds, by simpa using hnc, ?_, ?_⟩
        · intro m hm
          cases m with
          | zero => exact Or.inr (by simpa using eq_false_of_ne_true hdl)
          | succ m' => simpa using hprev m' (by omega)
        · rcases hh with ⟨hh0, hall⟩ | ⟨j, hj, hjn, hjc, hafter⟩
          · refine Or.inl ⟨hh0, ?_⟩
            intro m hm
            cases m with
            | zero => simpa using eq_false_of_ne_true hc
            | succ m' => simpa using hall m' (by omega)
          · refine Or.inr ⟨j + 1, ?_, by omega, by simpa using hjc, ?_⟩
            · rw [hj]; congr 1; omega
            · intro m hm1 hm2
              cases m with
              | zero => omega
              | succ m' => simpa using hafter m' (by omega) (by omega)

/-- Claim C3, counterexample: with two keyword lines before the data start,
`find_data_section` records the SECOND (last) one — index 1, not the first at
index 0 — because each keyword match overwrites `header_line`. -/
theorem c3_schema_locator_counterexample :
    find_data_section ["Mes A", "Mes B", "Janeiro;1"] = (some 1, some 2) ∧
    (some 1 : Option ℕ) ≠ some 0 := by decide

/-- Claim C3 as amended: when the scan finds a data start at index `d`, that
line starts with `Janeiro` (quoted or unquoted) and contains no header
keyword, no earlier keyword-free line is a data line, scanning continued past
every keyword line, and the recorded header row is the LAST line containing a
header keyword before the data start (`none` when there is no such line) —
not the first. -/
theorem c3_schema_locator_amended (lines : List String) (h : Option ℕ) (d : ℕ)
    (heq : find_data_section lines = (h, some d)) :
    d < lines.length ∧
    linha_inicio_dados (lines.getD d "") = true ∧
    linha_cabecalho (lines.getD d "") = false ∧
    (∀ m, m < d → linha_cabecalho (lines.getD m "") = true ∨
      linha_inicio_dados (lines.getD m "") = false) ∧
    ((h = none ∧ ∀ m, m < d → linha_cabecalho (lines.getD m "") = false) ∨
     (∃ j, h = some j ∧ j < d ∧ linha_cabecalho (lines.getD j "") = true ∧
       ∀ m, j < m → m < d → linha_cabecalho (lines.getD m "") = false)) := by
  obtain ⟨n, hn, hd, hds, hnc, hprev, hh⟩ :=
    find_data_section_aux_spec lines 0 none h d heq
  have hdn : d = n := by omega
  subst hdn
  refine ⟨hn, hds, hnc, hprev, ?_⟩
  rcases hh with ⟨hh0, hall⟩ | ⟨j, hj, hjn, hjc, hafter⟩
  · exact Or.inl ⟨hh0, hall⟩
  · exact Or.inr ⟨j, by simpa using hj, hjn, hjc, hafter⟩

/-- Claim C3 witness: a file with one keyword line then the `Janeiro` data
line; the characterization instantiates with header index 0 and data start 1. -/
theorem c3_schema_locator_witness :
    1 < (["Mes notificacao;UF", "Janeiro;1"] : List String).length ∧
    linha_inicio_dados ((["Mes notificacao;UF", "Janeiro;1"] : List String).getD 1 "") = true ∧
    linha_cabecalho ((["Mes notificacao;UF", "Janeiro;1"] : List String).getD 1 "") = false ∧
    (∀ m, m < 1 →
      linha_cabecalho ((["Mes notificacao;UF", "Janeiro;1"] : List String).getD m "") = true ∨
      linha_inicio_dados ((["Mes notificacao;UF", "Janeiro;1"] : List String).getD m "") = false) ∧
    (((some 0 : Option ℕ) = none ∧ ∀ m, m < 1 →
        linha_cabecalho ((["Mes notificacao;UF", "Janeiro;1"] : List String).getD m "") = false) ∨
     (∃ j, (some 0 : Option ℕ) = some j ∧ j < 1 ∧
        linha_cabecalho ((["Mes notificacao;UF", "Janeiro;1"] : List String).getD j "") = true ∧
        ∀ m, j < m → m < 1 →
          linha_cabecalho ((["Mes notificacao;UF", "Janeiro;1"] : List String).getD m "") = false)) :=
  c3_schema_locator_amended ["Mes notificacao;UF", "Janeiro;1"] (some 0) 1 (by decide)

/-! ## Claim C4 -/

/-- Claim C4, counterexample: `abcd.csv` matches neither
`<4-digit-year>.csv` nor `<4-digit-year>d.csv`, so by the claim its kind
should come from content detection — which reads this content as case data —
yet `detect_data_type` returns death data from the filename alone, because
ANY stem ending in `d` is classified as death data before the year pattern
is ever checked. -/
theorem c4_data_type_counterexample :
    detect_data_type "abcd.csv" "Casos Provaveis" = .mortes ∧
    detect_by_content "Casos Provaveis" = .casos ∧
    (TipoDado.mortes ≠ TipoDado.casos) := by decide

/-- Claim C4 as amended: any filename whose lower-cased stem (after dropping
`.csv`) ends in `d` is death data regardless of content; otherwise a bare
four-digit stem is case data; only filenames matching neither pattern fall
back to content-based detection. -/
theorem c4_data_type_amended (filename content : String) :
    (endsWithD (stripCsvLower (lowerL filename.toList)) = true →
      detect_data_type filename content = .mortes) ∧
    (endsWithD (stripCsvLower (lowerL filename.toList)) = false →
      isFourDigitsL (stripCsvLower (lowerL filename.toList)) = true →
      detect_data_type filename content = .casos) ∧
    (endsWithD (stripCsvLower (lowerL filename.toList)) = false →
      isFourDigitsL (stripCsvLower (lowerL filename.toList)) = false →
      detect_data_type filename content = detect_by_content content) := by
  have e : detect_data_type filename content =
      (if endsWithD (stripCsvLower (lowerL filename.toList)) = true then TipoDado.mortes
       else if isFourDigitsL (stripCsvLower (lowerL filename.toList)) = true then
         TipoDado.casos
       else detect_by_content content) := rfl
  refine ⟨fun h => ?_, fun h1 h2 => ?_, fun h1 h2 => ?_⟩
  · rw [e, if_pos h]
  · rw [e, if_neg (by simp only [h1]; simp), if_pos h2]
  · rw [e, if_neg (by simp only [h1]; simp), if_neg (by simp only [h2]; simp)]

/-- Claim C4 witness: the three filename classes on concrete names. -/
theorem c4_data_type_witness :
    detect_data_type "2020d.csv" "" = .mortes ∧
    detect_data_type "2020.csv" "" = .casos ∧
    detect_data_type "resumo.csv" "Evolucao: obitos" =
      detect_by_content "Evolucao: obitos" :=
  ⟨(c4_data_type_amended "2020d.csv" "").1 (by decide),
   (c4_data_type_amended "2020.csv" "").2.1 (by decide) (by decide),
   (c4_data_type_amended "resumo.csv" "Evolucao: obitos").2.2 (by decide) (by decide)⟩

/-! ## Claim C7 -/

/-- `firstFourRun` finds nothing exactly when no position carries four
consecutive digits. -/
theorem firstFourRun_eq_none_iff :
    ∀ (l : List Char), firstFourRun l = none ↔ ∀ i, fourAt l i = false
  | [] => by
    simp only [firstFourRun, true_iff]
    intro i
    simp [fourAt, isFourDigitsL]
  | [a] => by
    simp only [firstFourRun, true_iff]
    intro i
    have hlen : (([a].drop i).take 4).length ≠ 4 := by
      simp only [List.length_take, List.length_drop, List.length_cons, List.length_nil]
      omega
    have hd : decide ((([a].drop i).take 4).length = 4) = false := by
      simpa using hlen
    simp only [fourAt, isFourDigitsL, hd, Bool.false_and]
  | [a, b] => by
    simp only [firstFourRun, true_iff]
    intro i
    have hlen : (([a, b].drop i).take 4).length ≠ 4 := by
      simp only [List.length_take, List.length_drop, List.length_cons, List.length_nil]
      omega
    have hd : decide ((([a, b].drop i).take 4).length = 4) = false := by
      simpa using hlen
    simp only [fourAt, isFourDigitsL, hd, Bool.false_and]
  | [a, b, c] => by
    simp only [firstFourRun, true_iff]
    intro i
    have hlen : (([a, b, c].drop i).take 4).length ≠ 4 := by
      simp only [List.length_take, List.length_drop, List.length_cons, List.length_nil]
      omega
    have hd : decide ((([a, b, c].drop i).take 4).length = 4) = false := by
      simpa using hlen
    simp only [fourAt, isFourDigitsL, hd, Bool.false_and]
  | a :: b :: c :: d :: rest => by
    rw [firstFourRun]
    by_cases h : (isDigitC a && isDigitC b && isDigitC c && isDigitC d) = true
    · rw [if_pos h]
      simp only [reduceCtorEq, false_iff, not_forall]
      refine ⟨0, ?_⟩
      simp only [Bool.and_eq_true] at h
      simp [fourAt, isFourDigitsL, List.all_cons, h.1.1.1, h.1.1.2, h.1.2, h.2]
    · rw [if_neg h]
      rw [firstFourRun_eq_none_iff (b :: c :: d :: rest)]
      constructor
      · intro hall i
        cases i with
        | zero =>
          simp only [Bool.not_eq_true] at h
          simp only [fourAt, List.drop_zero, List.take_succ_cons, List.take_zero,
            isFourDigitsL, List.all_cons, List.all_nil]
          cases hA : isDigitC a <;> cases hB : isDigitC b <;> cases hC : isDigitC c <;>
            cases hD : isDigitC d <;> simp_all
        | succ i' => simpa [fourAt] using hall i'
      · intro hall i
        simpa [fourAt] using hall (i + 1)

/-- Claim C7, counterexample: `20.csv20.csv` contains no run of four
consecutive digits, so by the claim year extraction should fail — but
deleting the two `.csv` occurrences concatenates `20` and `20` into the
four-digit stem `2020`, and the year 2020 is returned without error. -/
theorem c7_year_extraction_counterexample :
    extract_year_from_filename "20.csv20.csv" = some 2020 ∧
    (∀ i, fourAt "20.csv20.csv".toList i = false) ∧
    extract_year_from_filename "20.csv20.csv" ≠ none :=
  ⟨by decide, (firstFourRun_eq_none_iff _).mp (by decide), by decide⟩

/-- Claim C7 as amended: extraction fails exactly when the stem (the filename
with every `.csv`/`.CSV` occurrence deleted and a trailing `d` stripped) is
not four digits AND the filename nowhere contains four consecutive digits
(note that deleting `.csv` can concatenate digit groups, so a filename with
no four-digit run can still produce a year); a four-digit stem is returned as
the year; otherwise the leftmost four-digit run of the filename is returned. -/
theorem c7_year_extraction_amended (filename : String) :
    (extract_year_from_filename filename = none ↔
      (isFourDigitsL (year_stem filename) = false ∧
        ∀ i, fourAt filename.toList i = false)) ∧
    (isFourDigitsL (year_stem filename) = true →
      extract_year_from_filename filename = some (digitsVal (year_stem filename))) ∧
    (isFourDigitsL (year_stem filename) = false →
      extract_year_from_filename filename = firstFourRun filename.toList) := by
  have e : extract_year_from_filename filename =
      (if isFourDigitsL (year_stem filename) = true then
        some (digitsVal (year_stem filename))
      else firstFourRun filename.toList) := rfl
  by_cases h : isFourDigitsL (year_stem filename) = true
  · rw [e, if_pos h]
    exact ⟨by simp [h], fun _ => rfl, fun hcon => absurd h (by simp [hcon])⟩
  · have h' : isFourDigitsL (year_stem filename) = false := by
      simpa using h
    rw [e, if_neg h]
    refine ⟨?_, fun hcon => absurd hcon (by simp [h']), fun _ => rfl⟩
    rw [firstFourRun_eq_none_iff]
    simp [h']

/-- Claim C7 witness: a four-digit death-file stem yields its year, and a
filename with no digits takes the search branch (and fails there). -/
theorem c7_year_extraction_witness :
    extract_year_from_filename "2020d.csv" = some (digitsVal (year_stem "2020d.csv")) ∧
    extract_year_from_filename "nope.csv" = firstFourRun "nope.csv".toList :=
  ⟨(c7_year_extraction_amended "2020d.csv").2.1 (by decide),
   (c7_year_extraction_amended "nope.csv").2.2 (by decide)⟩

/-! ## Claim C5 -/

/-- A row whose label misses a month keeps every month's row group intact. -/
theorem linhas_do_mes_cons_ne (r : LinhaClima) (rows : List LinhaClima) (m : ℕ)
    (h : mes_da_linha r ≠ m) :
    linhas_do_mes (r :: rows) m = linhas_do_mes rows m := by
  simp [linhas_do_mes, List.filter_cons, h]

/-- Claim C5, counterexample: the unparseable day label `not-a-date` is NOT
assigned an out-of-range sentinel month — the converter falls back to the
placeholder `1/1`, which month extraction reads as January, so the row
survives grouping and its precipitation lands in the January sum. -/
theorem c5_sentinel_counterexample :
    convert_str_to_day_and_month "not-a-date" = some "1/1" ∧
    extract_month (some "1/1") = 1 ∧
    soma_precipitacao [⟨some "1/1", 3, 0⟩] 1 = 3 ∧
    (agrega_mensal [⟨some "1/1", 3, 0⟩]).map (fun x => x.1) = [1] ∧
    (3 : ℚ) ≠ 0 := by
  have hm : extract_month (some "1/1") = 1 := by decide
  refine ⟨by decide, hm, ?_, ?_, by norm_num⟩
  · simp [soma_precipitacao, linhas_do_mes, List.filter_cons, mes_da_linha, hm]
  · have hl : ∀ m, (linhas_do_mes [(⟨some "1/1", 3, 0⟩ : LinhaClima)] m).length =
        if m = 1 then 1 else 0 := by
      intro m
      by_cases h1 : m = 1
      · subst h1
        simp [linhas_do_mes, List.filter_cons, mes_da_linha, hm]
      · simp [linhas_do_mes, List.filter_cons, mes_da_linha, hm, Ne.symm h1, h1]
    simp only [agrega_mensal, hl]
    decide

/-- Claim C5 as amended: a row reaching month extraction without a readable
`day/month` label (month outside 1..12, or an unsplittable or missing label)
is assigned the sentinel 13 and excluded from every month's sum and average;
but a label that is unparseable already at the date-conversion stage becomes
the placeholder `1/1`, lands in January, and is NOT discarded. -/
theorem c5_sentinel_amended :
    (∀ (rows : List LinhaClima) (r : LinhaClima), mes_da_linha r = 13 →
      agrega_mensal (r :: rows) = agrega_mensal rows) ∧
    convert_str_to_day_and_month "not-a-date" = some "1/1" ∧
    extract_month (some "1/1") = 1 ∧ extract_month none = 13 ∧
    extract_month (some "5/13") = 13 ∧ extract_month (some "garbage") = 13 := by
  refine ⟨?_, by decide, by decide, by decide, by decide, by decide⟩
  intro rows r h13
  unfold agrega_mensal
  apply List.filterMap_congr
  intro m hm
  rw [List.mem_range'_1] at hm
  have hne : mes_da_linha r ≠ m := by omega
  rw [linhas_do_mes_cons_ne r rows m hne]
  have hs : soma_precipitacao (r :: rows) m = soma_precipitacao rows m := by
    unfold soma_precipitacao
    rw [linhas_do_mes_cons_ne r rows m hne]
  have ht : media_temp (r :: rows) m = media_temp rows m := by
    unfold media_temp
    rw [linhas_do_mes_cons_ne r rows m hne]
  rw [hs, ht]

/-- Claim C5 witness: a sentinel-labelled row (month 13) added to a January
row changes no monthly aggregate. -/
theorem c5_sentinel_witness :
    agrega_mensal [⟨some "garbage", 7, 1⟩, ⟨some "1/1", 3, 0⟩] =
      agrega_mensal [⟨some "1/1", 3, 0⟩] :=
  c5_sentinel_amended.1 [⟨some "1/1", 3, 0⟩] ⟨some "garbage", 7, 1⟩ (by decide)

/-! ## Claim C8 -/

/-- The monthly aggregates are a function of the row multiset: permuting the
rows changes no per-month length, sum, or mean, hence no aggregate. -/
theorem agrega_mensal_perm (rows1 rows2 : List LinhaClima)
    (h : rows1.Perm rows2) : agrega_mensal rows1 = agrega_mensal rows2 := by
  have key : ∀ m, (linhas_do_mes rows1 m).Perm (linhas_do_mes rows2 m) :=
    fun m => h.filter _
  have len : ∀ m, (linhas_do_mes rows1 m).length = (linhas_do_mes rows2 m).length :=
    fun m => (key m).length_eq
  have hsum : ∀ m, soma_precipitacao rows1 m = soma_precipitacao rows2 m :=
    fun m => ((key m).map _).sum_eq
  have hmean : ∀ m, media_temp rows1 m = media_temp rows2 m := by
    intro m
    simp only [media_temp]
    rw [len m, ((key m).map _).sum_eq]
  unfold agrega_mensal
  simp only [len, hsum, hmean]

/-- Claim C8: concurrent aggregation determinism. The read wave's lock makes
every station land in its region's list, so a different worker count or
interleaving only permutes each region's station list; the aggregation wave
then produces identical (month, precipitation-sum, temperature-mean) rows for
every region, because the aggregates depend only on the multiset of combined
per-day rows. (Numbers are modelled in `ℚ`; per-station work is thread-local.) -/
theorem c8_aggregation_determinism (ss1 ss2 : List Estacao) (uf : String)
    (h : ss1.Perm ss2) :
    agrega_mensal (linhas_regiao ss1 uf) = agrega_mensal (linhas_regiao ss2 uf) := by
  apply agrega_mensal_perm
  unfold linhas_regiao
  exact (h.filter _).flatMap_right _

/-- Claim C8 witness: two SP station files processed in either arrival order
give the same aggregate rows. -/
theorem c8_aggregation_determinism_witness :
    agrega_mensal (linhas_regiao
      [⟨"SP", [⟨some "1/1", 10, 20⟩]⟩, ⟨"SP", [⟨some "2/1", 15, 22⟩]⟩] "SP") =
    agrega_mensal (linhas_regiao
      [⟨"SP", [⟨some "2/1", 15, 22⟩]⟩, ⟨"SP", [⟨some "1/1", 10, 20⟩]⟩] "SP") :=
  c8_aggregation_determinism _ _ "SP" (List.Perm.swap _ _ _)

/-! ## Claim C6 -/

/-- A comma-free list passes through the comma-to-`0.` replacement unchanged. -/
theorem replaceCommaZeroDot_id (t : List Char) (h : t.contains ',' = false) :
    replaceCommaZeroDot t = t := by
  induction t with
  | nil => rfl
  | cons c cs ih =>
    simp only [List.contains_cons, Bool.or_eq_false_iff, beq_eq_false_iff_ne,
      ne_eq] at h
    rw [replaceCommaZeroDot, if_neg (fun hc => h.1 hc.symm), ih h.2]

/-- Claim C6: behaviour of the decimal cleaners. (1) The empty string and the
sentinel `-9999` give `0.0` on both paths. (2) A leading comma turns the
value into `0.` followed by the remaining (comma-free) characters. (3) Without
a leading comma every comma becomes a period. (4) When the transformed string
parses: a negative value is clamped to `0.0` on the precipitation path, a
nonnegative value passes through, and the temperature path returns the parsed
value — negative or not — unchanged. (5) When it does not parse, both paths
give `0.0`. -/
theorem c6_clean_decimal :
    (convert_int_str_to_float "" = 0 ∧ convert_int_str_to_float "-9999" = 0 ∧
     convert_temperature_str_to_float "" = 0 ∧
     convert_temperature_str_to_float "-9999" = 0) ∧
    (∀ t : List Char, t.contains ',' = false →
      commaTransform (',' :: t) = '0' :: '.' :: t) ∧
    (∀ l : List Char, l.head? ≠ some ',' → commaTransform l = replaceCommaDot l) ∧
    (∀ (s : String) (q : ℚ), trimL s.toList ≠ [] → trimL s.toList ≠ "-9999".toList →
      pyRatL (commaTransform (trimL s.toList)) = some q →
      (q < 0 → convert_int_str_to_float s = 0) ∧
      (0 ≤ q → convert_int_str_to_float s = q) ∧
      convert_temperature_str_to_float s = q) ∧
    (∀ s : String, trimL s.toList ≠ [] → trimL s.toList ≠ "-9999".toList →
      pyRatL (commaTransform (trimL s.toList)) = none →
      convert_int_str_to_float s = 0 ∧ convert_temperature_str_to_float s = 0) := by
  refine ⟨⟨by decide, by decide, by decide, by decide⟩, ?_, ?_, ?_, ?_⟩
  · intro t h
    simp [commaTransform, replaceCommaZeroDot, replaceCommaZeroDot_id t h]
  · intro l h
    simp [commaTransform, h]
  · intro s q h1 h2 h3
    have e : convert_int_str_to_float s =
        (if trimL s.toList = [] ∨ trimL s.toList = "-9999".toList then 0
        else
          match pyRatL (commaTransform (trimL s.toList)) with
          | some q => if 0 ≤ q then q else 0
          | none => 0) := rfl
    have et : convert_temperature_str_to_float s =
        (if trimL s.toList = [] ∨ trimL s.toList = "-9999".toList then 0
        else
          match pyRatL (commaTransform (trimL s.toList)) with
          | some q => q
          | none => 0) := rfl
    rw [e, et, if_neg (fun hcon => hcon.elim h1 h2),
      if_neg (fun hcon => hcon.elim h1 h2), h3]
    exact ⟨fun hq => by simp [not_le.mpr hq], fun hq => by simp [hq], rfl⟩
  · intro s h1 h2 h3
    have e : convert_int_str_to_float s =
        (if trimL s.toList = [] ∨ trimL s.toList = "-9999".toList then 0
        else
          match pyRatL (commaTransform (trimL s.toList)) with
          | some q => if 0 ≤ q then q else 0
          | none => 0) := rfl
    have et : convert_temperature_str_to_float s =
        (if trimL s.toList = [] ∨ trimL s.toList = "-9999".toList then 0
        else
          match pyRatL (commaTransform (trimL s.toList)) with
          | some q => q
          | none => 0) := rfl
    rw [e, et, if_neg (fun hcon => hcon.elim h1 h2),
      if_neg (fun hcon => hcon.elim h1 h2), h3]
    exact ⟨rfl, rfl⟩

/-- Claim C6 witness: `",5"` reads as `0.5`; `"-3,5"` is clamped to `0.0` on
the precipitation path and preserved as `-3.5` on the temperature path;
`"2,5"` passes through as `2.5`. -/
theorem c6_clean_decimal_witness :
    commaTransform (',' :: ['5']) = '0' :: '.' :: ['5'] ∧
    convert_int_str_to_float "-3,5" = 0 ∧
    convert_temperature_str_to_float "-3,5" = -(partsToQ (3, 5, 1)) ∧
    convert_int_str_to_float "2,5" = partsToQ (2, 5, 1) ∧
    -(partsToQ (3, 5, 1)) = -7/2 ∧ partsToQ (2, 5, 1) = 5/2 := by
  have hneg : pyRatL (commaTransform (trimL "-3,5".toList)) =
      some (-(partsToQ (3, 5, 1))) := by
    have hct : commaTransform (trimL "-3,5".toList) = '-' :: "3.5".toList := by decide
    have hp : pyRatParts "3.5".toList = some (3, 5, 1) := by decide
    rw [hct]
    show (pyRatUnsigned "3.5".toList).map (fun q => -q) = some (-(partsToQ (3, 5, 1)))
    rw [pyRatUnsigned, hp]
    rfl
  have hpos : pyRatL (commaTransform (trimL "2,5".toList)) =
      some (partsToQ (2, 5, 1)) := by
    have hct : commaTransform (trimL "2,5".toList) = '2' :: '.' :: ['5'] := by decide
    have hp : pyRatParts ('2' :: '.' :: ['5']) = some (2, 5, 1) := by decide
    rw [hct]
    show pyRatUnsigned ('2' :: '.' :: ['5']) = some (partsToQ (2, 5, 1))
    rw [pyRatUnsigned, hp]
    rfl
  have hq : (-(partsToQ (3, 5, 1)) : ℚ) < 0 := by norm_num [partsToQ]
  have h := c6_clean_decimal
  refine ⟨h.2.1 ['5'] (by decide),
    (h.2.2.2.1 "-3,5" (-(partsToQ (3, 5, 1))) (by decide) (by decide) hneg).1 hq,
    (h.2.2.2.1 "-3,5" (-(partsToQ (3, 5, 1))) (by decide) (by decide) hneg).2.2,
    (h.2.2.2.1 "2,5" (partsToQ (2, 5, 1)) (by decide) (by decide) hpos).2.1
      (by norm_num [partsToQ]),
    by norm_num [partsToQ], by norm_num [partsToQ]⟩

/-! ## Claim C9 -/

/-- Appending a station filed under `SP` extends (or creates) the `SP`
bucket. -/
theorem busca_grupo_insere (g : List (String × List Estacao)) (e : Estacao)
    (h : e.uf = "SP") :
    busca_grupo (insere_estacao g e) "SP" =
      some ((busca_grupo g "SP").getD [] ++ [e]) := by
  induction g with
  | nil => simp [insere_estacao, busca_grupo, h]
  | cons p rest ih =>
    obtain ⟨k, v⟩ := p
    by_cases hk : k = e.uf
    · subst hk
      simp [insere_estacao, busca_grupo, h]
    · have hk' : k ≠ "SP" := fun hcon => hk (hcon.trans h.symm)
      simp [insere_estacao, busca_grupo, hk, hk', ih]

/-- Claim C9: a station whose metadata lacks a `UF:` entry or cannot be read
(`meta = none`), or names a region outside the 27 known codes, is assigned
region `SP`, and its rows are filed under the `SP` bucket of the year's
grouping rather than skipped. -/
theorem c9_unknown_uf_default_sp (meta : Option String)
    (h : ∀ s, meta = some s →
      state_dict.contains (String.mk (upperL (trimL s.toList))) = false) :
    read_csv_uf meta = "SP" ∧
    ∀ (g : List (String × List Estacao)) (linhas : List LinhaClima),
      busca_grupo (insere_estacao g ⟨read_csv_uf meta, linhas⟩) "SP" =
        some ((busca_grupo g "SP").getD [] ++ [⟨"SP", linhas⟩]) := by
  have huf : read_csv_uf meta = "SP" := by
    cases meta with
    | none => decide
    | some s =>
      have hs := h s rfl
      simp only [read_csv_uf, Option.getD_some, hs]
      simp
  refine ⟨huf, fun g linhas => ?_⟩
  rw [huf]
  exact busca_grupo_insere g ⟨"SP", linhas⟩ rfl

/-- Claim C9 witness: the unknown region label `" zz "` resolves to `SP` and
its station lands in the empty grouping's `SP` bucket. -/
theorem c9_unknown_uf_default_sp_witness :
    read_csv_uf (some " zz ") = "SP" ∧
    busca_grupo (insere_estacao [] ⟨read_csv_uf (some " zz "), []⟩) "SP" =
      some ((busca_grupo [] "SP").getD [] ++ [⟨"SP", []⟩]) := by
  have h := c9_unknown_uf_default_sp (some " zz ")
    (fun s hs => by injection hs with h2; subst h2; decide)
  exact ⟨h.1, h.2 [] []⟩

/-! ## Claim C10 -/

/-- A digit is not a letter (ASCII ranges are disjoint). -/
theorem isAlphaC_eq_false_of_isDigitC (c : Char) (h : isDigitC c = true) :
    isAlphaC c = false := by
  simp only [isDigitC, Bool.and_eq_true, decide_eq_true_eq] at h
  simp only [isAlphaC, isLowerC, isUpperC, Bool.or_eq_false_iff,
    Bool.and_eq_false_iff, decide_eq_false_iff_not]
  omega

/-- Claim C10, counterexample: the label `99 TOTAL` starts with the two-digit
code `99`, which is absent from the code table — yet normalization returns
`None` (the label is discarded), not the code string `"99"`, because the
ignore rules (here the `TOTAL` substring) run before the numeric-code
branch. -/
theorem c10_unknown_code_counterexample :
    clean_state_name "99 TOTAL" = none ∧
    clean_state_name "99 TOTAL" ≠ some "99" := by decide

/-- Claim C10 as amended: for a label that survives the ignore rules, starts
with a two-digit code other than `00`, and whose code is absent from
`estados_map`, normalization returns the two-digit code string itself — and
such a non-canonical digit code can become a region key in the consolidation
store, as the second conjunct shows for the column `99 X`. -/
theorem c10_unknown_code_amended :
    (∀ (s : String) (a b : Char) (rest : List Char),
      removeQuotesL (trimL s.toList) = a :: b :: rest →
      isDigitC a = true → isDigitC b = true →
      should_ignore_column (String.mk (removeQuotesL (trimL s.toList))) = false →
      String.mk [a, b] ≠ "00" →
      tabelaBusca estados_map (String.mk [a, b]) = none →
      clean_state_name s = some (String.mk [a, b])) ∧
    (processar_colunas 2020 "Janeiro" .casos [] ["99 X"] ["7"]).1 =
      [((2020, "Janeiro", "99"), ⟨7, 0, 0, 0⟩)] := by
  constructor
  · intro s a b rest hc ha hb hig h00 htab
    have e : clean_state_name s =
        (if should_ignore_column (String.mk (removeQuotesL (trimL s.toList))) = true
        then none
        else if (removeQuotesL (trimL s.toList)).length = 2 &&
            (removeQuotesL (trimL s.toList)).all isAlphaC then
          some (String.mk (upperL (removeQuotesL (trimL s.toList))))
        else
          match twoDigitCode (removeQuotesL (trimL s.toList)) with
          | some code =>
            if String.mk code = "00" then none
            else some ((tabelaBusca estados_map (String.mk code)).getD (String.mk code))
          | none =>
            match buscaNome estados_nomes (upperL (removeQuotesL (trimL s.toList))) with
            | some uf => some uf
            | none => some (String.mk (removeQuotesL (trimL s.toList)))) := rfl
    rw [e, if_neg (fun hcon => by rw [hig] at hcon; exact Bool.false_ne_true hcon),
      if_neg ?_]
    · have htwo : twoDigitCode (removeQuotesL (trimL s.toList)) = some [a, b] := by
        rw [hc]
        simp [twoDigitCode, ha, hb]
      rw [htwo]
      simp only [if_neg h00, htab, Option.getD_none]
    · rw [hc]
      simp [isAlphaC_eq_false_of_isDigitC a ha]
  · decide

/-- Claim C10 witness: the unmapped code `99` in the label `99 X` comes back
as the region string `99`. -/
theorem c10_unknown_code_witness :
    clean_state_name "99 X" = some (String.mk ['9', '9']) :=
  c10_unknown_code_amended.1 "99 X" '9' '9' [' ', 'X'] (by decide) (by decide)
    (by decide) (by decide) (by decide) (by decide)
